import Mathlib

/-!
Shallow embedding of the CodeDuel client (src/frontend/src) together with the
parts of the duel engine that the repository's SETUP.md places in the backend
(backend/services/*.py), whose sources are not in the tree and are therefore
modelled from the specification.

Conventions of the embedding:
* epoch instants and durations are `Int` milliseconds; JavaScript's
  `Math.floor` on a nonnegative division is `Int` division (`Int.ediv`, which
  is floor division for a positive divisor), and `Math.ceil (x / 1000)` is
  `-((-x) / 1000)`;
* JavaScript `x || d` on a number treats `0` as falsy, and on an optional
  string treats both `undefined` and `""` as falsy; these are modelled by
  explicit helpers;
* React closures: the socket handlers of `DuelScreen` are registered once in a
  `useEffect` whose dependency list `[user, duelId, opponent]` never changes,
  so the handler closures (and the `submitAnswer` they call) read the state of
  the render in which the effect ran, while the `set...` calls they make update
  the component's live state.  Functions modelling such closures therefore take
  the closure-captured state and the live state as separate arguments.
-/

namespace CodeDuel

/-! ### Scoring (modelled from the spec)

The award computation runs in the backend (`backend/services/duel_service.py`
per SETUP.md), which is not under `src/`; the definitions below follow spec
section 4.2.  The client corroborates the constants: DuelLobby.tsx lists
"+10 points for correct answers" and "+1 bonus point per second remaining",
and ResultsScreen.tsx divides the player's score by 190. -/

/-- Modelled from the spec: `secondsRemainingAtAnswerTime =
max(0, (deadline - answeredAt) / 1000)` (spec section 4.2); the backend
implementation is not under `src/`. -/
def secondsRemaining (deadline answeredAt : Int) : Int :=
  max 0 ((deadline - answeredAt) / 1000)

/-- Modelled from the spec: AnswerProcessor scoring (spec section 4.2) —
a wrong or absent selection scores 0 with `correct = false`; a correct
selection scores `base (10) + floor(secondsRemainingAtAnswerTime)`.  The
backend implementation is not under `src/`. -/
def awardPoints (correctIndex selectedIndex deadline answeredAt : Int) :
    Bool × Int :=
  if selectedIndex = correctIndex then
    (true, 10 + secondsRemaining deadline answeredAt)
  else
    (false, 0)

/-! ### DuelScreen client state (src/frontend/src/components/DuelScreen.tsx) -/

/-- Per-player scores as displayed by the client
(`useState({ player1: 0, player2: 0 })`, DuelScreen.tsx line 18). -/
structure Scores where
  player1 : Int
  player2 : Int
deriving DecidableEq

/-- The `useState` pieces of `DuelScreen` that the embedded handlers touch
(DuelScreen.tsx lines 13-21). -/
structure DuelClientState where
  hasAnswered : Bool
  timeLeft : Int
  selectedAnswer : Option Int
  questionIndex : Nat
  scores : Scores
deriving DecidableEq

/-- The initial values of the `useState` hooks: `hasAnswered = false`,
`timeLeft = 9`, `selectedAnswer = null`, `questionIndex = 0`,
`scores = { player1: 0, player2: 0 }` (DuelScreen.tsx lines 13-18).
This is also the state captured by the first-render closures that the
socket-event effect registers. -/
def initialDuelState : DuelClientState :=
  { hasAnswered := false
    timeLeft := 9
    selectedAnswer := none
    questionIndex := 0
    scores := { player1 := 0, player2 := 0 } }

/-- Whether a call to `submitAnswer` emitted the `answer` socket message, and
with which payload fields (DuelScreen.tsx lines 195-214). -/
inductive SubmitEffect where
  | emitted (questionIndex : Nat) (selectedIndex : Int)
  | noEmission
deriving DecidableEq

/-- `submitAnswer` (DuelScreen.tsx lines 182-226).  `read` is the state seen
by the closure that is being invoked (for a click handler this is the current
render's state; for the timer callback scheduled by `handleQuestionStart` it
is the first-render state, i.e. `initialDuelState`, because the socket
handlers are registered once).  `current` is the component's live state, which
the `setSelectedAnswer` / `setHasAnswered` calls update.  The guard
`if (hasAnswered || timeLeft <= 0) return;` and the connectivity check
`if (!isConnected || !socket) return;` both read the closure's values. -/
def submitAnswer (read current : DuelClientState) (connected : Bool)
    (optionIndex : Int) : DuelClientState × SubmitEffect :=
  if read.hasAnswered ∨ read.timeLeft ≤ 0 then
    (current, .noEmission)
  else if !connected then
    (current, .noEmission)
  else
    ({ current with selectedAnswer := some optionIndex, hasAnswered := true },
     .emitted read.questionIndex optionIndex)

/-- Outcome of one tick of the deadline-path countdown in
`handleQuestionStart` (DuelScreen.tsx lines 82-106). -/
inductive TimerStep where
  | reschedule
  | autoSubmit
  | idle
deriving DecidableEq

/-- One tick of `updateTimer` (DuelScreen.tsx lines 82-106): while
`remainingMs > 100` it reschedules itself; otherwise, if the closure's
`hasAnswered` is false, it schedules `submitAnswer(-1)`; otherwise it does
nothing.  `readHasAnswered` is the `hasAnswered` the closure reads (the
first-render value, since `handleQuestionStart` is registered once). -/
def updateTimerStep (deadline now : Int) (readHasAnswered : Bool) : TimerStep :=
  if deadline - now > 100 then .reschedule
  else if readHasAnswered then .idle
  else .autoSubmit

/-! ### Countdown source (DuelScreen.tsx lines 70-138) -/

/-- JavaScript `x || d` on a number: `0` is falsy, so it yields `d` both when
`x` is absent and when it is `0`. -/
def jsOrDefault (x : Option Int) (d : Int) : Int :=
  match x with
  | some v => if v = 0 then d else v
  | none => d

/-- Which countdown the client runs for a `question_start` event: the
absolute-deadline countdown when the event carries a deadline, otherwise the
duration fallback. -/
inductive TimerMode where
  | deadlineTimer (deadline : Int)
  | fallbackTimer (endTime : Int)
deriving DecidableEq

/-- The countdown chosen by `handleQuestionStart` (DuelScreen.tsx lines
77-138): with `data.deadline` present the countdown tracks that absolute
instant; otherwise `const timeLimit = data.timeLimit || 9` and the fallback
anchors `endTime = Date.now() + timeLimit * 1000` at the local receipt time. -/
def chooseTimer (deadline : Option Int) (timeLimit : Option Int)
    (receiptNow : Int) : TimerMode :=
  match deadline with
  | some d => .deadlineTimer d
  | none => .fallbackTimer (receiptNow + jsOrDefault timeLimit 9 * 1000)

/-- The absolute instant the chosen countdown counts down to. -/
def cutoffOf : TimerMode → Int
  | .deadlineTimer d => d
  | .fallbackTimer e => e

/-- `Math.ceil (ms / 1000)` on integer milliseconds. -/
def ceilSeconds (ms : Int) : Int := -((-ms) / 1000)

/-- The seconds displayed by either countdown at instant `now`:
`Math.max(0, Math.ceil(remainingMs / 1000))` (DuelScreen.tsx lines 85 and
122). -/
def displayOf (m : TimerMode) (now : Int) : Int :=
  max 0 (ceilSeconds (cutoffOf m - now))

/-- Whether the countdown schedules another tick at instant `now`: the
deadline path reschedules while `remainingMs > 100` (line 89), the fallback
while `remainingMs > 0` (line 126). -/
def keepsRunning (m : TimerMode) (now : Int) : Bool :=
  match m with
  | .deadlineTimer d => decide (d - now > 100)
  | .fallbackTimer e => decide (e - now > 0)

/-! ### Reconnection (DuelScreen.tsx lines 171-175) -/

/-- JavaScript `x || 0` on a number: yields `0` when `x` is absent and when it
is `0`. -/
def jsOrZero (x : Option Nat) : Nat :=
  match x with
  | some v => if v = 0 then 0 else v
  | none => 0

/-- `handleDuelReconnected` (DuelScreen.tsx lines 171-175): on a
`duel_reconnected` event the client sets its scores to the snapshot's scores
and its question index to `data.currentQuestion || 0`. -/
def handleDuelReconnected (current : DuelClientState) (snapshotScores : Scores)
    (snapshotCurrentQuestion : Option Nat) : DuelClientState :=
  { current with
      scores := snapshotScores
      questionIndex := jsOrZero snapshotCurrentQuestion }

/-! ### Results screen (src/frontend/src/components/ResultsScreen.tsx) -/

/-- The three headline results the screen can render. -/
inductive DuelOutcome where
  | victory
  | tie
  | defeat
deriving DecidableEq

/-- JavaScript truthiness of an optional string: `undefined` and `""` are
falsy. -/
def jsTruthy : Option String → Bool
  | none => false
  | some s => if s = "" then false else true

/-- The headline of ResultsScreen.tsx:
`isWinner = winnerId === user?.id` (line 14), `isTie = !winnerId` (line 15),
rendered as `isWinner ? 'Victory!' : isTie ? 'Tie Game!' : 'Defeat'`
(line 56). -/
def renderResult (winnerId : Option String) (userId : String) : DuelOutcome :=
  if winnerId = some userId then .victory
  else if !(jsTruthy winnerId) then .tie
  else .defeat

/-! ### Topic selection (src/frontend/src/components/TopicSelection.tsx) -/

/-- `toggleTopic` (TopicSelection.tsx lines 55-61):
`prev.includes(topic) ? prev.filter(t => t !== topic) : [...prev, topic]`. -/
def toggleTopic (topic : String) (prev : List String) : List String :=
  if topic ∈ prev then prev.filter (fun t => t ≠ topic)
  else prev ++ [topic]

/-- `startDuel` (TopicSelection.tsx lines 63-73): an empty selection only
raises an alert and returns (no matchmaking navigation); otherwise the duel
proceeds with `selectedTopics[0]`.  The result is the topic handed to the
matchmaking screen, `none` meaning no matchmaking was initiated. -/
def startDuel (selectedTopics : List String) : Option String :=
  if selectedTopics.length = 0 then none
  else selectedTopics.head?

/-! ### Matchmaking screen (the MatchmakingScreen component in
src/frontend/src/components/TopicSelection.tsx, lines 166-299) -/

/-- Socket messages the matchmaking screen can emit. -/
inductive MMEmit where
  | joinQueue
  | cancelQueue (ticketId : String)
deriving DecidableEq

/-- A run of the MatchmakingScreen component.  `capturedTicket` is the
`ticket` value closed over by the effect's cleanup function: the effect runs
when its dependencies `[user, topic]` first hold and captures that render's
`ticket` state; `currentTicket` is the live `ticket` state; `emitted` is the
sequence of socket messages sent so far. -/
structure MMRun where
  capturedTicket : Option String
  currentTicket : Option String
  emitted : List MMEmit
deriving DecidableEq

/-- Mounting the screen: the effect runs with the initial `ticket = null` and
calls `startMatchmaking`, which emits `join_queue`; the cleanup closure
captures this render's `ticket`, i.e. `null` (TopicSelection.tsx lines
176-208). -/
def mmMount : MMRun :=
  { capturedTicket := none, currentTicket := none, emitted := [.joinQueue] }

/-- `handleQueueJoined` (TopicSelection.tsx lines 210-212): `setTicket`
updates the live state.  The effect's dependencies `[user, topic]` have not
changed, so the effect does not re-run and the cleanup's captured `ticket`
stays what it was at mount. -/
def mmOnQueueJoined (r : MMRun) (ticketId : String) : MMRun :=
  { r with currentTicket := some ticketId }

/-- Unmounting the screen: the effect cleanup (TopicSelection.tsx lines
190-200) emits `cancel_queue` if and only if the `ticket` it captured is
set. -/
def mmOnUnmount (r : MMRun) : MMRun :=
  { r with
      emitted := r.emitted ++
        (match r.capturedTicket with
         | some tid => [.cancelQueue tid]
         | none => []) }

/-- `cancelMatchmaking` (TopicSelection.tsx lines 231-237): the cancel button
handler is a closure of the current render, so it reads the live `ticket` and
emits `cancel_queue` when one is held. -/
def mmOnCancelPress (r : MMRun) : MMRun :=
  { r with
      emitted := r.emitted ++
        (match r.currentTicket with
         | some tid => [.cancelQueue tid]
         | none => []) }

/-- Recognises `cancel_queue` emissions. -/
def isCancelEmit : MMEmit → Bool
  | .cancelQueue _ => true
  | .joinQueue => false

/-! ### Axios response interceptor (src/frontend/src/utils/axiosConfig.ts) -/

/-- The slice of a request config the interceptor manipulates: an identifier
for tracking a request across replays, the `_retry` mark, and the
`Authorization` header. -/
structure RequestConfig where
  reqId : Nat
  retryFlag : Bool
  authHeader : Option String
deriving DecidableEq

/-- The module-level interceptor state (`isRefreshing`, `failedQueue`,
axiosConfig.ts lines 8-13) together with the localStorage tokens and whether
`window.location.href = '/'` was executed. -/
structure AxiosState where
  isRefreshing : Bool
  failedQueue : List RequestConfig
  storedToken : Option String
  storedRefreshToken : Option String
  redirectedToLogin : Bool
deriving DecidableEq

/-- What the interceptor does with a failed response before any refresh
completes (axiosConfig.ts lines 30-56). -/
inductive StartOutcome where
  | rejected
  | queuedForRefresh
  | clearedAndRedirected
  | refreshStarted (initiator : RequestConfig)
deriving DecidableEq

/-- What happens when the awaited refresh call completes (axiosConfig.ts
lines 58-82). -/
inductive FinishOutcome where
  | replayed (initiator : RequestConfig) (queuedReplays : List RequestConfig)
  | rejectedWithRedirect
deriving DecidableEq

/-- The synchronous part of the response interceptor, up to the `await` of
`POST /api/auth/refresh` (axiosConfig.ts lines 30-56).  A response whose
status is not 401, or whose request is already marked `_retry`, is rejected
unchanged.  A 401 during an in-flight refresh pushes the request onto
`failedQueue`.  Otherwise `_retry` and `isRefreshing` are set; if no refresh
token is stored, localStorage is cleared and the browser is redirected to
login (note the code returns before the `try`, so `isRefreshing` stays true);
if one is stored, the refresh call begins with the now-marked initiator. -/
def interceptStart (s : AxiosState) (status : Nat) (cfg : RequestConfig) :
    AxiosState × StartOutcome :=
  if status = 401 ∧ cfg.retryFlag = false then
    if s.isRefreshing then
      ({ s with failedQueue := s.failedQueue ++ [cfg] }, .queuedForRefresh)
    else
      match s.storedRefreshToken with
      | none =>
          ({ s with
              isRefreshing := true
              storedToken := none
              storedRefreshToken := none
              redirectedToLogin := true },
           .clearedAndRedirected)
      | some _ =>
          ({ s with isRefreshing := true },
           .refreshStarted { cfg with retryFlag := true })
  else (s, .rejected)

/-- Completion of the awaited refresh call (axiosConfig.ts lines 58-82).  On
success the new token is stored, every request parked in `failedQueue` is
resolved and replayed with the new `Authorization` header (its `_retry` flag
untouched, axiosConfig.ts lines 36-43), and the initiator is replayed with the
new header; on failure the queue is rejected, localStorage cleared, the
browser redirected to login, and the initiator rejected.  Either way the
`finally` clears `isRefreshing`. -/
def interceptFinish (s : AxiosState) (initiator : RequestConfig)
    (refreshResult : Option String) : AxiosState × FinishOutcome :=
  match refreshResult with
  | some newToken =>
      ({ s with
          storedToken := some newToken
          failedQueue := []
          isRefreshing := false },
       .replayed { initiator with authHeader := some newToken }
         (s.failedQueue.map (fun q => { q with authHeader := some newToken })))
  | none =>
      ({ s with
          storedToken := none
          storedRefreshToken := none
          failedQueue := []
          isRefreshing := false
          redirectedToLogin := true },
       .rejectedWithRedirect)

/-! ## Theorems -/

/-- C1: for every question, a correct answer is awarded base 10 points plus
`floor(max(0, (deadline - answeredAt) / 1000))` bonus points; with
`deadline = T + 9000` ms a correct answer at `T + 2000` ms scores exactly 17;
an instant correct answer scores 19, and over any 10-question duel in which
each answer is given no earlier than its question's start
(`deadline - 9000 ≤ answeredAt`) the total is at most 190. -/
theorem correct_answer_scoring (ci T : Int) (qs : List (Int × Int))
    (hstart : ∀ p ∈ qs, p.1 - 9000 ≤ p.2) (hlen : qs.length = 10) :
    awardPoints ci ci (T + 9000) (T + 2000) = (true, 17) ∧
    (∀ d : Int, awardPoints ci ci d (d - 9000) = (true, 19)) ∧
    (qs.map (fun p => (awardPoints ci ci p.1 p.2).2)).sum ≤ 190 := by
  refine ⟨?_, ?_, ?_⟩
  · have h7 : T + 9000 - (T + 2000) = 7000 := by ring
    simp only [awardPoints, secondsRemaining, if_pos rfl, h7]
    norm_num
  · intro d
    have h9 : d - (d - 9000) = 9000 := by ring
    simp only [awardPoints, secondsRemaining, if_pos rfl, h9]
    norm_num
  · have hb : ∀ x ∈ qs.map (fun p => (awardPoints ci ci p.1 p.2).2),
        x ≤ (19 : Int) := by
      intro x hx
      simp only [List.mem_map] at hx
      obtain ⟨p, hp, rfl⟩ := hx
      have h1 : p.1 - p.2 ≤ 9000 := by have := hstart p hp; omega
      have h2 : (p.1 - p.2) / 1000 ≤ 9 := by
        calc (p.1 - p.2) / 1000 ≤ 9000 / 1000 :=
              Int.ediv_le_ediv (by norm_num) h1
          _ = 9 := by norm_num
      have h3 : max 0 ((p.1 - p.2) / 1000) ≤ 9 := max_le (by norm_num) h2
      have h4 : (10 : Int) + max 0 ((p.1 - p.2) / 1000) ≤ 19 := by linarith
      simpa [awardPoints, secondsRemaining] using h4
    have hsum := List.sum_le_card_nsmul
      (qs.map (fun p => (awardPoints ci ci p.1 p.2).2)) 19 hb
    rw [List.length_map, hlen] at hsum
    simpa using hsum

/-- Witness for C1 at `ci = 0`, `T = 0` and ten questions each answered at its
start instant. -/
theorem correct_answer_scoring_witness :
    awardPoints 0 0 (0 + 9000) (0 + 2000) = (true, 17) ∧
    (∀ d : Int, awardPoints 0 0 d (d - 9000) = (true, 19)) ∧
    ((List.replicate 10 ((9000 : Int), (0 : Int))).map
      (fun p => (awardPoints 0 0 p.1 p.2).2)).sum ≤ 190 :=
  correct_answer_scoring 0 0 (List.replicate 10 (9000, 0))
    (by decide) (by decide)

/-- C2: when a question's deadline has elapsed and the player has not
answered, the timer tick resolves to the auto-submission branch; the
auto-submission goes through `submitAnswer` reading the first-render state
(whose guard therefore passes) and emits `selectedIndex = -1`; and, under the
spec-modelled scoring, a `-1` selection against any valid correct index is
graded `correct = false` with 0 points. -/
theorem timeout_auto_submit (deadline now ci : Int) (current : DuelClientState)
    (helapsed : deadline ≤ now) (hci : 0 ≤ ci) :
    updateTimerStep deadline now false = .autoSubmit ∧
    (submitAnswer initialDuelState current true (-1)).2 = .emitted 0 (-1) ∧
    awardPoints ci (-1) deadline now = (false, 0) := by
  refine ⟨?_, rfl, ?_⟩
  · unfold updateTimerStep
    rw [if_neg (by omega)]
    rfl
  · unfold awardPoints
    rw [if_neg (by omega : ¬(-1 : Int) = ci)]

/-- Witness for C2 at `deadline = 9000`, `now = 9500`, correct index 2, and a
live state in which the player has already locked in answer 1. -/
theorem timeout_auto_submit_witness :
    updateTimerStep 9000 9500 false = .autoSubmit ∧
    (submitAnswer initialDuelState
      { hasAnswered := true, timeLeft := 0, selectedAnswer := some 1,
        questionIndex := 3, scores := { player1 := 10, player2 := 0 } }
      true (-1)).2 = .emitted 0 (-1) ∧
    awardPoints 2 (-1) 9000 9500 = (false, 0) :=
  timeout_auto_submit 9000 9500 2
    { hasAnswered := true, timeLeft := 0, selectedAnswer := some 1,
      questionIndex := 3, scores := { player1 := 10, player2 := 0 } }
    (by norm_num) (by norm_num)

/-- C3, failing evaluation: the `question_start` handler and the timer
callback it schedules are closures from the render in which the socket
listeners were registered (a `useEffect` with unchanging dependencies
`[user, duelId, opponent]`), so they read `initialDuelState`.  With a live
state that already records an answer (`hasAnswered = true`), the timeout tick
still chooses auto-submission and the scheduled `submitAnswer (-1)` still
passes its guard and emits a second answer for the same question — although
the guard's source (`if (hasAnswered || timeLeft <= 0) return;`) and the
timer's own comment intend to prevent exactly that. -/
theorem second_submit_emitted_despite_answer :
    (DuelClientState.hasAnswered
      { hasAnswered := true, timeLeft := 0, selectedAnswer := some 1,
        questionIndex := 0, scores := { player1 := 10, player2 := 0 } }
      = true) ∧
    updateTimerStep 9000 9000 initialDuelState.hasAnswered = .autoSubmit ∧
    (submitAnswer initialDuelState
      { hasAnswered := true, timeLeft := 0, selectedAnswer := some 1,
        questionIndex := 0, scores := { player1 := 10, player2 := 0 } }
      true (-1)).2 = .emitted 0 (-1) := by
  refine ⟨rfl, ?_, rfl⟩
  decide

/-- C4, counterexample: the timeLimit fallback does not compute the same
cutoff instant as the deadline path.  For a question with server deadline
10000 and `timeLimit = 9` whose `question_start` arrives at local time 1100,
the fallback counts down to 1100 + 9000 = 10100 while the deadline path counts
down to 10000; and even at an equal cutoff the deadline path has stopped
rescheduling at instant 9950 (remaining 50 ms ≤ 100) while the fallback is
still running. -/
theorem fallback_timer_counterexample :
    cutoffOf (chooseTimer none (some 9) 1100) = 10100 ∧
    cutoffOf (chooseTimer (some 10000) (some 9) 1100) = 10000 ∧
    cutoffOf (chooseTimer none (some 9) 1100)
      ≠ cutoffOf (chooseTimer (some 10000) (some 9) 1100) ∧
    keepsRunning (.deadlineTimer 10000) 9950 = false ∧
    keepsRunning (.fallbackTimer 10000) 9950 = true := by
  decide

/-- C4, amended: when the `question_start` event carries a deadline, the
displayed remaining time is `max 0 (ceil((deadline - now) / 1000))`, a
function of the deadline field and the current clock alone — independent of
the event's `timeLimit` and of the local receipt time; when no deadline is
present the client falls back to an independent timer anchored at the local
receipt time, whose cutoff is `receiptNow + (timeLimit || 9) * 1000`. -/
theorem deadline_timer_canonical (d now r1 r2 : Int)
    (tl1 tl2 tl : Option Int) :
    displayOf (chooseTimer (some d) tl1 r1) now
      = max 0 (ceilSeconds (d - now)) ∧
    displayOf (chooseTimer (some d) tl2 r2) now
      = displayOf (chooseTimer (some d) tl1 r1) now ∧
    cutoffOf (chooseTimer none tl r1) = r1 + jsOrDefault tl 9 * 1000 :=
  ⟨rfl, rfl, rfl⟩

/-- C5: on a `duel_reconnected` event the client's displayed scores become
exactly the snapshot's scores and its question index becomes exactly the
snapshot's `currentQuestion` — for every snapshot value, including 4 and 0 —
with no dependence on the client's previous state. -/
theorem reconnect_resumes_snapshot (current : DuelClientState) (s : Scores)
    (n : Nat) :
    (handleDuelReconnected current s (some n)).scores = s ∧
    (handleDuelReconnected current s (some n)).questionIndex = n ∧
    (handleDuelReconnected current s (some 4)).questionIndex = 4 ∧
    (handleDuelReconnected current s (some 0)).questionIndex = 0 := by
  refine ⟨rfl, ?_, rfl, rfl⟩
  simp only [handleDuelReconnected, jsOrZero]
  split <;> omega

/-- C6: the results screen reports a tie whenever the `duel_end` event carries
no `winnerId`, reports Victory whenever `winnerId` equals the local user's id,
and the reported headline is a total function of `(winnerId, user.id)` taking
one of the three outcomes. -/
theorem tie_and_victory_reporting (uid : String) (w : Option String) :
    renderResult none uid = .tie ∧
    renderResult (some uid) uid = .victory ∧
    (renderResult w uid = .victory ∨ renderResult w uid = .tie ∨
      renderResult w uid = .defeat) := by
  refine ⟨rfl, by simp [renderResult], ?_⟩
  unfold renderResult
  split
  · exact Or.inl rfl
  · split
    · exact Or.inr (Or.inl rfl)
    · exact Or.inr (Or.inr rfl)

/-- C7: a non-empty selection starts matchmaking with exactly the first
selected topic (the head of the selection list, which `toggleTopic` keeps in
selection order), and an empty selection initiates no matchmaking. -/
theorem first_topic_resolution (s : List String) (h : s ≠ []) :
    startDuel s = some (s.head h) ∧ startDuel [] = none := by
  refine ⟨?_, rfl⟩
  cases s with
  | nil => exact absurd rfl h
  | cons a t => simp [startDuel]

/-- Witness for C7 on the selection `["algorithms", "python"]`. -/
theorem first_topic_resolution_witness :
    startDuel ["algorithms", "python"] = some "algorithms" ∧
    startDuel [] = none :=
  first_topic_resolution ["algorithms", "python"] (by decide)

/-- C8: `toggleTopic t` flips exactly `t`'s membership in the selection and
leaves every other topic's membership unchanged, and applying it twice with
the same `t` restores every topic's original membership. -/
theorem toggle_topic_membership (t u v : String) (s : List String)
    (hu : u ≠ t) :
    (t ∈ toggleTopic t s ↔ t ∉ s) ∧
    (u ∈ toggleTopic t s ↔ u ∈ s) ∧
    (v ∈ toggleTopic t (toggleTopic t s) ↔ v ∈ s) := by
  refine ⟨?_, ?_, ?_⟩
  · by_cases h : t ∈ s <;>
      simp [toggleTopic, h, List.mem_filter]
  · by_cases h : t ∈ s <;>
      simp [toggleTopic, h, List.mem_filter, List.mem_append, hu]
  · by_cases h : t ∈ s
    · by_cases hv : v = t <;>
        simp [toggleTopic, h, hv, List.mem_filter, List.mem_append]
    · by_cases hv : v = t <;>
        simp [toggleTopic, h, hv, List.mem_filter, List.mem_append]

/-- Witness for C8 on the selection `["a", "b"]` with `t = "a"`, `u = "b"`,
`v = "a"`. -/
theorem toggle_topic_membership_witness :
    ("a" ∈ toggleTopic "a" ["a", "b"] ↔ "a" ∉ ["a", "b"]) ∧
    ("b" ∈ toggleTopic "a" ["a", "b"] ↔ "b" ∈ ["a", "b"]) ∧
    ("a" ∈ toggleTopic "a" (toggleTopic "a" ["a", "b"]) ↔ "a" ∈ ["a", "b"]) :=
  toggle_topic_membership "a" "b" "a" ["a", "b"] (by decide)

/-- C9, failing evaluation: after the screen mounts and `queue_joined`
delivers ticket `"t1"`, a live ticket is held (`currentTicket = some "t1"`),
yet unmounting emits no `cancel_queue` — the cleanup closure captured the
mount-time `ticket = null` and the effect (dependencies `[user, topic]`) never
re-ran — while the cancel button, a current-render closure, does emit
`cancel_queue "t1"`. -/
theorem unmount_drops_live_ticket :
    (mmOnQueueJoined mmMount "t1").currentTicket = some "t1" ∧
    ((mmOnUnmount (mmOnQueueJoined mmMount "t1")).emitted.filter isCancelEmit)
      = [] ∧
    ((mmOnCancelPress (mmOnQueueJoined mmMount "t1")).emitted.filter
      isCancelEmit) = [.cancelQueue "t1"] := by
  decide

/-- C10, counterexample: a request queued during an in-flight refresh is
retried more than once.  Request 1 hits a 401 and starts the refresh (and is
marked `_retry`); request 2 hits a 401 while the refresh is in flight and is
queued; the refresh succeeds and request 2 is replayed with `_retry` still
false; the replay's 401 therefore starts a second refresh cycle and a second
replay of request 2, refuting "retries it at most once ... replayed a single
time (marked by _retry)". -/
theorem queued_request_retried_twice :
    (interceptStart ⟨false, [], some "t0", some "rt", false⟩ 401
        ⟨1, false, none⟩).2
      = .refreshStarted ⟨1, true, none⟩ ∧
    interceptStart ⟨true, [], some "t0", some "rt", false⟩ 401
        ⟨2, false, none⟩
      = (⟨true, [⟨2, false, none⟩], some "t0", some "rt", false⟩,
         .queuedForRefresh) ∧
    interceptFinish ⟨true, [⟨2, false, none⟩], some "t0", some "rt", false⟩
        ⟨1, true, none⟩ (some "t1")
      = (⟨false, [], some "t1", some "rt", false⟩,
         .replayed ⟨1, true, some "t1"⟩ [⟨2, false, some "t1"⟩]) ∧
    (interceptStart ⟨false, [], some "t1", some "rt", false⟩ 401
        ⟨2, false, some "t1"⟩).2
      = .refreshStarted ⟨2, true, some "t1"⟩ := by
  decide

/-- C10, amended: a 401 on a request already marked `_retry` is rejected
outright, so a request that itself initiates the refresh is replayed at most
once and its replay carries the `_retry` mark; a non-401 failure is rejected
unchanged; a 401 during an in-flight refresh is queued rather than starting a
second refresh (and such a queued request is later replayed without the
`_retry` mark); if no refresh token is stored, local storage is cleared and
the user is redirected to login with the request rejected; if the refresh
itself fails, the queue is rejected, storage cleared, and the user redirected
to login; a successful refresh stores the new token, replays the initiator
with the `_retry` mark and the new header, and replays the queued requests
with the new header. -/
theorem interceptor_retry_policy (s : AxiosState) (cfg : RequestConfig)
    (status : Nat) :
    (cfg.retryFlag = true → interceptStart s status cfg = (s, .rejected)) ∧
    (status ≠ 401 → interceptStart s status cfg = (s, .rejected)) ∧
    (status = 401 → cfg.retryFlag = false → s.isRefreshing = true →
      interceptStart s status cfg
        = ({ s with failedQueue := s.failedQueue ++ [cfg] },
           .queuedForRefresh)) ∧
    (status = 401 → cfg.retryFlag = false → s.isRefreshing = false →
      s.storedRefreshToken = none →
      interceptStart s status cfg
        = ({ s with
              isRefreshing := true
              storedToken := none
              storedRefreshToken := none
              redirectedToLogin := true },
           .clearedAndRedirected)) ∧
    (∀ rt, status = 401 → cfg.retryFlag = false → s.isRefreshing = false →
      s.storedRefreshToken = some rt →
      interceptStart s status cfg
        = ({ s with isRefreshing := true },
           .refreshStarted { cfg with retryFlag := true })) ∧
    (∀ tok, interceptFinish s cfg (some tok)
        = ({ s with
              storedToken := some tok
              failedQueue := []
              isRefreshing := false },
           .replayed { cfg with authHeader := some tok }
             (s.failedQueue.map
               (fun q => { q with authHeader := some tok })))) ∧
    interceptFinish s cfg none
      = ({ s with
            storedToken := none
            storedRefreshToken := none
            failedQueue := []
            isRefreshing := false
            redirectedToLogin := true },
         .rejectedWithRedirect) := by
  refine ⟨?_, ?_, ?_, ?_, ?_, fun tok => rfl, rfl⟩
  · intro h
    unfold interceptStart
    rw [if_neg (by simp [h])]
  · intro h
    unfold interceptStart
    rw [if_neg (by simp [h])]
  · intro h1 h2 h3
    simp [interceptStart, h1, h2, h3]
  · intro h1 h2 h3 h4
    simp [interceptStart, h1, h2, h3, h4]
  · intro rt h1 h2 h3 h4
    simp [interceptStart, h1, h2, h3, h4]

/-- Witness for C10's amended theorem: a 401 arriving while a refresh is in
flight is queued without starting a second refresh. -/
theorem interceptor_retry_policy_witness :
    interceptStart ⟨true, [], some "t0", some "rt", false⟩ 401
        ⟨2, false, none⟩
      = (⟨true, [⟨2, false, none⟩], some "t0", some "rt", false⟩,
         .queuedForRefresh) :=
  (interceptor_retry_policy ⟨true, [], some "t0", some "rt", false⟩
    ⟨2, false, none⟩ 401).2.2.1 rfl rfl rfl

end CodeDuel
